import Mathlib

/-!
Shallow embedding of the financial-statement normalization and ratio
derivation engine of the `tikr` repository (files `real_time.py` and
`real_time_financial_dashboard.py`, method `get_screener_data` of class
`RealTimeFinancialDashboard`).

Floating-point values flowing through the pandas pipeline are modelled as
exact rationals extended with the three non-finite markers that the code
can actually produce (`+inf`, `-inf`, `NaN`): the claims under study are
about exact zeros, infinities and NaN-filling, never about rounding.
The provider (yfinance) is opaque: the engine is embedded as a function of
the raw data the provider returned (the `info` record and the three raw
statement tables, already transposed and with the date axis formatted to
four-digit-year strings, as done by lines 60-68 of `real_time.py`).
-/

set_option autoImplicit false

/-- A 64-bit float as it occurs in this pipeline: a finite value (modelled
exactly as a rational), positive or negative infinity, or NaN. -/
inductive FVal where
  | fin (q : ℚ)
  | pinf
  | ninf
  | nan
deriving DecidableEq, Repr

/-- Float division as numpy/pandas performs it on series elements:
`x / 0` is `NaN` when `x = 0`, `+inf` when `x > 0`, `-inf` when `x < 0`
(no exception is raised); `NaN` propagates through either operand. -/
def FVal.div : FVal → FVal → FVal
  | FVal.fin a, FVal.fin b =>
      if b = 0 then
        if a = 0 then FVal.nan else if 0 < a then FVal.pinf else FVal.ninf
      else FVal.fin (a / b)
  | FVal.fin _, FVal.pinf => FVal.fin 0
  | FVal.fin _, FVal.ninf => FVal.fin 0
  | FVal.pinf, FVal.fin b => if b < 0 then FVal.ninf else FVal.pinf
  | FVal.ninf, FVal.fin b => if b < 0 then FVal.pinf else FVal.ninf
  | FVal.pinf, FVal.pinf => FVal.nan
  | FVal.pinf, FVal.ninf => FVal.nan
  | FVal.ninf, FVal.pinf => FVal.nan
  | FVal.ninf, FVal.ninf => FVal.nan
  | FVal.nan, _ => FVal.nan
  | _, FVal.nan => FVal.nan

/-- A statement DataFrame after `transpose().reset_index()` and the
date-to-year reformatting: a `years` column of four-digit-year strings
(the RangeIndex is positional) and one named column of floats per
line item. -/
structure Table where
  years : List String
  items : List (String × List FVal)
deriving DecidableEq, Repr

/-- `df.get(name)` restricted to the line-item columns: the column when the
name is present, `none` when absent (the Python call sites then fall back
to the scalar defaults `0` or `np.nan`). -/
def Table.getCol (t : Table) (name : String) : Option (List FVal) :=
  (t.items.find? (fun p => p.1 == name)).map (fun p => p.2)

/-- `fillna(0)` on a single value: NaN becomes `0`, everything else
(including infinities) is kept unchanged. -/
def fillnaVal : FVal → FVal
  | FVal.nan => FVal.fin 0
  | v => v

/-- `df.fillna(0, inplace=True)` on a statement table (lines 82-84 of
`real_time.py`): every NaN in every line-item column becomes 0; the year
axis and the catalogue of columns are unchanged. -/
def fillnaTable (t : Table) : Table :=
  { years := t.years, items := t.items.map (fun p => (p.1, p.2.map fillnaVal)) }

/-- Element-wise division of two pandas Series that both carry a
positional RangeIndex: indices are aligned by label, so the result ranges
over the union of the two indices and a position present in only one
operand yields NaN. -/
def seriesDiv (xs ys : List FVal) : List FVal :=
  (List.range (max xs.length ys.length)).map fun i =>
    match xs[i]?, ys[i]? with
    | some x, some y => FVal.div x y
    | _, _ => FVal.nan

/-- Assigning a Series into the `ratios` DataFrame aligns it onto the
frame's RangeIndex of length `k` (the income statement's row count):
positions past the series' end become NaN, extra positions are dropped. -/
def alignTo (k : Nat) (xs : List FVal) : List FVal :=
  (List.range k).map fun i => (xs[i]?).getD FVal.nan

/-- One ratio column before the final `fillna`: the four presence cases of
`num_df.get(numName, 0) / den_df.get(denName, np.nan)`. An absent
numerator is the scalar `0` broadcast over the denominator; an absent
denominator is the scalar `np.nan`, which turns every quotient into NaN. -/
def ratioRaw (num den : Option (List FVal)) (k : Nat) : List FVal :=
  match num, den with
  | some ns, some ds => alignTo k (seriesDiv ns ds)
  | none, some ds => alignTo k (ds.map (fun d => FVal.div (FVal.fin 0) d))
  | some ns, none => alignTo k (ns.map (fun n => FVal.div n FVal.nan))
  | none, none => List.replicate k FVal.nan

/-- One ratio column as stored in the bundle: the raw quotient column
after `ratios.fillna(0)` (line 81 of `real_time.py`). -/
def ratioCol (num den : Option (List FVal)) (k : Nat) : List FVal :=
  (ratioRaw num den k).map fillnaVal

/-- The provider's `info` record, restricted to the keys the engine reads.
A key absent from the Python dict (or mapped to `None`) is `none`. -/
structure Info where
  longName : Option String := none
  currentPrice : Option ℚ := none
  regularMarketPrice : Option ℚ := none
  previousClose : Option ℚ := none
  marketCap : Option ℚ := none
  bookValue : Option ℚ := none
  dividendYield : Option ℚ := none
  trailingPE : Option ℚ := none
  fiftyTwoWeekHigh : Option ℚ := none
  fiftyTwoWeekLow : Option ℚ := none
  ebitda : Option ℚ := none
  enterpriseValue : Option ℚ := none
  freeCashflow : Option ℚ := none
  debtToEquity : Option ℚ := none
  returnOnEquity : Option ℚ := none
deriving DecidableEq, Repr

/-- `not info` in Python: the info dict is empty (no key the engine reads
is present; an empty dict has in particular no `regularMarketPrice`). -/
def Info.isEmpty (i : Info) : Bool :=
  i.longName.isNone && i.currentPrice.isNone && i.regularMarketPrice.isNone &&
  i.previousClose.isNone && i.marketCap.isNone && i.bookValue.isNone &&
  i.dividendYield.isNone && i.trailingPE.isNone && i.fiftyTwoWeekHigh.isNone &&
  i.fiftyTwoWeekLow.isNone && i.ebitda.isNone && i.enterpriseValue.isNone &&
  i.freeCashflow.isNone && i.debtToEquity.isNone && i.returnOnEquity.isNone

/-- The `ratios` DataFrame: year axis copied from the income statement,
plus the five derived ratio columns. -/
structure RatioTable where
  years : List String
  net_profit_margin : List FVal
  return_on_equity : List FVal
  return_on_assets : List FVal
  current_ratio : List FVal
  debt_to_equity : List FVal
deriving DecidableEq, Repr

/-- The `real_time_metrics` sub-dictionary of the returned data. -/
structure Metrics where
  return_on_equity : ℚ
  debt_to_equity : ℚ
  free_cashflow : ℚ
  enterprise_value : ℚ
  ev_to_ebitda : ℚ
  fifty_two_week_high : ℚ
  fifty_two_week_low : ℚ
deriving DecidableEq, Repr

/-- The dictionary returned by `get_screener_data`. -/
structure Bundle where
  symbol : String
  company_name : String
  current_price : ℚ
  change : ℚ
  change_percent : ℚ
  market_cap : ℚ
  book_value : ℚ
  dividend_yield : ℚ
  pe_ratio : ℚ
  ratios : RatioTable
  income_statement : Table
  balance_sheet : Table
  cash_flow : Table
  real_time_metrics : Metrics
deriving DecidableEq, Repr

def nsSuffix : String := ".NS"

def notAvailable : String := "N/A"

def kNetIncome : String := "Net Income"

def kTotalRevenue : String := "Total Revenue"

def kTotalStockholderEquity : String := "Total Stockholder Equity"

def kTotalAssets : String := "Total Assets"

def kTotalCurrentAssets : String := "Total Current Assets"

def kTotalCurrentLiabilities : String := "Total Current Liabilities"

def kTotalLiab : String := "Total Liab"

/-- `if not symbol.upper().endswith('.NS'): symbol += '.NS'`. -/
def normalizeSymbol (s : String) : String :=
  if s.toUpper.endsWith nsSuffix then s else s ++ nsSuffix

namespace real_time_financial_dashboard

/-- `get_screener_data` of `real_time_financial_dashboard.py` (lines
24-119): no validity gate; the info scalars default to 0 (`'N/A'` for the
name), the five ratio columns are derived with pandas division and
NaN-filled, the three statement tables are NaN-filled, and the snapshot
metrics are assembled, guarding only `change_percent` (zero when
`previous_close` is falsy) and `ev_to_ebitda` (zero when `ebitda` is
falsy). -/
def get_screener_data (symbol : String) (info : Info)
    (income_statement balance_sheet cash_flow : Table) : Bundle :=
  let symbol := normalizeSymbol symbol
  let company_name := info.longName.getD notAvailable
  let current_price := info.currentPrice.getD (info.regularMarketPrice.getD 0)
  let previous_close := info.previousClose.getD 0
  let change := current_price - previous_close
  let change_percent := if previous_close = 0 then 0 else change / previous_close * 100
  let market_cap := info.marketCap.getD 0
  let book_value := info.bookValue.getD 0
  let dividend_yield := info.dividendYield.getD 0
  let pe_ratio := info.trailingPE.getD 0
  let fifty_two_week_high := info.fiftyTwoWeekHigh.getD 0
  let fifty_two_week_low := info.fiftyTwoWeekLow.getD 0
  let k := income_statement.years.length
  let ratios : RatioTable :=
    { years := income_statement.years
      net_profit_margin :=
        ratioCol (income_statement.getCol kNetIncome)
          (income_statement.getCol kTotalRevenue) k
      return_on_equity :=
        ratioCol (income_statement.getCol kNetIncome)
          (balance_sheet.getCol kTotalStockholderEquity) k
      return_on_assets :=
        ratioCol (income_statement.getCol kNetIncome)
          (balance_sheet.getCol kTotalAssets) k
      current_ratio :=
        ratioCol (balance_sheet.getCol kTotalCurrentAssets)
          (balance_sheet.getCol kTotalCurrentLiabilities) k
      debt_to_equity :=
        ratioCol (balance_sheet.getCol kTotalLiab)
          (balance_sheet.getCol kTotalStockholderEquity) k }
  let income_statement := fillnaTable income_statement
  let balance_sheet := fillnaTable balance_sheet
  let cash_flow := fillnaTable cash_flow
  let ebitda := info.ebitda.getD 0
  let enterprise_value := info.enterpriseValue.getD 0
  let free_cashflow := info.freeCashflow.getD 0
  let debt_to_equity_realtime := info.debtToEquity.getD 0
  let return_on_equity_realtime := info.returnOnEquity.getD 0
  { symbol := symbol
    company_name := company_name
    current_price := current_price
    change := change
    change_percent := change_percent
    market_cap := market_cap
    book_value := book_value
    dividend_yield := dividend_yield
    pe_ratio := pe_ratio
    ratios := ratios
    income_statement := income_statement
    balance_sheet := balance_sheet
    cash_flow := cash_flow
    real_time_metrics :=
      { return_on_equity := return_on_equity_realtime
        debt_to_equity := debt_to_equity_realtime
        free_cashflow := free_cashflow
        enterprise_value := enterprise_value
        ev_to_ebitda := if ebitda = 0 then 0 else enterprise_value / ebitda
        fifty_two_week_high := fifty_two_week_high
        fifty_two_week_low := fifty_two_week_low } }

end real_time_financial_dashboard

namespace real_time

/-- `get_screener_data` of `real_time.py` (lines 25-119): identical to the
variant in `real_time_financial_dashboard.py` except for the validity gate
of lines 41-44, `if not info or info.get('regularMarketPrice') is None:
return None`. -/
def get_screener_data (symbol : String) (info : Info)
    (income_statement balance_sheet cash_flow : Table) : Option Bundle :=
  let symbol := normalizeSymbol symbol
  if info.isEmpty || info.regularMarketPrice.isNone then
    none
  else
    let company_name := info.longName.getD notAvailable
    let current_price := info.currentPrice.getD (info.regularMarketPrice.getD 0)
    let previous_close := info.previousClose.getD 0
    let change := current_price - previous_close
    let change_percent := if previous_close = 0 then 0 else change / previous_close * 100
    let market_cap := info.marketCap.getD 0
    let book_value := info.bookValue.getD 0
    let dividend_yield := info.dividendYield.getD 0
    let pe_ratio := info.trailingPE.getD 0
    let fifty_two_week_high := info.fiftyTwoWeekHigh.getD 0
    let fifty_two_week_low := info.fiftyTwoWeekLow.getD 0
    let k := income_statement.years.length
    let ratios : RatioTable :=
      { years := income_statement.years
        net_profit_margin :=
          ratioCol (income_statement.getCol kNetIncome)
            (income_statement.getCol kTotalRevenue) k
        return_on_equity :=
          ratioCol (income_statement.getCol kNetIncome)
            (balance_sheet.getCol kTotalStockholderEquity) k
        return_on_assets :=
          ratioCol (income_statement.getCol kNetIncome)
            (balance_sheet.getCol kTotalAssets) k
        current_ratio :=
          ratioCol (balance_sheet.getCol kTotalCurrentAssets)
            (balance_sheet.getCol kTotalCurrentLiabilities) k
        debt_to_equity :=
          ratioCol (balance_sheet.getCol kTotalLiab)
            (balance_sheet.getCol kTotalStockholderEquity) k }
    let income_statement := fillnaTable income_statement
    let balance_sheet := fillnaTable balance_sheet
    let cash_flow := fillnaTable cash_flow
    let ebitda := info.ebitda.getD 0
    let enterprise_value := info.enterpriseValue.getD 0
    let free_cashflow := info.freeCashflow.getD 0
    let debt_to_equity_realtime := info.debtToEquity.getD 0
    let return_on_equity_realtime := info.returnOnEquity.getD 0
    some
      { symbol := symbol
        company_name := company_name
        current_price := current_price
        change := change
        change_percent := change_percent
        market_cap := market_cap
        book_value := book_value
        dividend_yield := dividend_yield
        pe_ratio := pe_ratio
        ratios := ratios
        income_statement := income_statement
        balance_sheet := balance_sheet
        cash_flow := cash_flow
        real_time_metrics :=
          { return_on_equity := return_on_equity_realtime
            debt_to_equity := debt_to_equity_realtime
            free_cashflow := free_cashflow
            enterprise_value := enterprise_value
            ev_to_ebitda := if ebitda = 0 then 0 else enterprise_value / ebitda
            fifty_two_week_high := fifty_two_week_high
            fifty_two_week_low := fifty_two_week_low } }

end real_time

/-- The global matplotlib style parameters that `__init__` sets (lines
14-23 of `real_time.py`): the only process-wide state the class touches. -/
structure PlotParams where
  figureWidth : ℚ
  figureHeight : ℚ
  axesTitleSize : ℚ
  axesLabelSize : ℚ
  xtickLabelSize : ℚ
  ytickLabelSize : ℚ
  legendFontSize : ℚ
deriving DecidableEq, Repr

/-- The style state as `__init__` leaves it. -/
def initPlotParams : PlotParams :=
  { figureWidth := 12, figureHeight := 6, axesTitleSize := 16,
    axesLabelSize := 12, xtickLabelSize := 10, ytickLabelSize := 10,
    legendFontSize := 10 }

/-- Process state visible to a `RealTimeFinancialDashboard` instance: the
global plot style (the instance itself stores no attributes). -/
structure DashboardState where
  plot : PlotParams
deriving DecidableEq, Repr

/-- The method call `self.get_screener_data(...)` with the process state
threaded explicitly.  The body of the Python method (lines 25-119 of
`real_time.py`) reads no attribute of `self` and writes no module-level
or instance state, so the state passes through unchanged and the result
is a function of the arguments and the provider data alone. -/
def get_screener_data_call (st : DashboardState) (symbol : String) (info : Info)
    (income_statement balance_sheet cash_flow : Table) :
    DashboardState × Option Bundle :=
  (st, real_time.get_screener_data symbol info income_statement balance_sheet cash_flow)

/-! Concrete provider responses used to evaluate the engine on the
scenarios the specification names. -/

def symA : String := "ITC"

def y2020 : String := "2020"

def y2021 : String := "2021"

def y2022 : String := "2022"

def y2023 : String := "2023"

/-- An info record holding only a last-session price. -/
def infoA : Info := { regularMarketPrice := some 100 }

/-- An info record holding only a live price (`currentPrice`), no
`regularMarketPrice`. -/
def infoC : Info := { currentPrice := some 100 }

/-- An info record with a price, a zero EBITDA and enterprise value 500,
and no previous close. -/
def infoE : Info :=
  { regularMarketPrice := some 100, ebitda := some 0, enterpriseValue := some 500 }

/-- An empty raw statement table (empty DataFrame). -/
def tblEmpty : Table := { years := [], items := [] }

/-- The income statement of the specification's scenario: years
[2021, 2022, 2023], Total Revenue [100, 200, 0], Net Income [10, 20, 5]. -/
def incA : Table :=
  { years := [y2021, y2022, y2023]
    items := [(kTotalRevenue, [FVal.fin 100, FVal.fin 200, FVal.fin 0]),
              (kNetIncome, [FVal.fin 10, FVal.fin 20, FVal.fin 5])] }

/-- An income statement whose year axis is [2021, 2022]. -/
def incB : Table :=
  { years := [y2021, y2022]
    items := [(kNetIncome, [FVal.fin 10, FVal.fin 20])] }

/-- A balance sheet whose year axis is [2020, 2021, 2022]: one year more
than `incB`. -/
def bsB : Table :=
  { years := [y2020, y2021, y2022]
    items := [(kTotalAssets, [FVal.fin 7, FVal.fin 8, FVal.fin 9])] }

/-- A balance sheet that lacks "Total Current Assets" entirely but has
current liabilities. -/
def bsD : Table :=
  { years := [y2021, y2022, y2023]
    items := [(kTotalCurrentLiabilities, [FVal.fin 50, FVal.fin 60, FVal.fin 70])] }

/-- A balance sheet whose equity series has only two entries, shorter than
the three-year income statement `incA`. -/
def bsE : Table :=
  { years := [y2021, y2022]
    items := [(kTotalStockholderEquity, [FVal.fin 200, FVal.fin 200])] }

/-- An income statement that lacks "Net Income" entirely. -/
def incC : Table :=
  { years := [y2021, y2022]
    items := [(kTotalRevenue, [FVal.fin 100, FVal.fin 200])] }

/-- The value a filled ratio entry takes at a year whose denominator is
exactly zero, as a function of the numerator value at that year: `0/0`
and `NaN/0` are NaN and hence filled to 0; a positive (resp. negative)
finite numerator gives +inf (resp. -inf); an infinite numerator stays
infinite. -/
def zeroDenomValue : FVal → FVal
  | FVal.fin a => if a = 0 then FVal.fin 0 else if 0 < a then FVal.pinf else FVal.ninf
  | FVal.pinf => FVal.pinf
  | FVal.ninf => FVal.ninf
  | FVal.nan => FVal.fin 0

/-- The zero-denominator behaviour of one derived ratio column `col` over
numerator selection `num`, denominator selection `den` and year-axis
length `k`: at every aligned year whose denominator is exactly zero, the
stored ratio entry is `zeroDenomValue` of the numerator there. -/
def zeroDenomPointwise (num den : Option (List FVal)) (k : Nat)
    (col : List FVal) : Prop :=
  ∀ ns ds i x, num = some ns → den = some ds → i < k →
    ns[i]? = some x → ds[i]? = some (FVal.fin 0) →
    col[i]? = some (zeroDenomValue x)

/-- Element-wise division with silent length-mismatch reconciliation for
one derived ratio column: at every position of the year axis where both
operand series have a value, the stored entry is their filled quotient;
at every position missing from either operand (a year-axis length
mismatch) the entry is 0 — NaN from index alignment, then filled — and
never an error. -/
def elementwiseSilent (num den : Option (List FVal)) (k : Nat)
    (col : List FVal) : Prop :=
  ∀ ns ds, num = some ns → den = some ds →
    ∀ i, i < k →
      (∀ x y, ns[i]? = some x → ds[i]? = some y →
        col[i]? = some (fillnaVal (FVal.div x y))) ∧
      ((ns.length ≤ i ∨ ds.length ≤ i) → col[i]? = some (FVal.fin 0))

/-! Helper lemmas about the embedded pandas operations. -/

theorem fillnaVal_ne_nan (v : FVal) : fillnaVal v ≠ FVal.nan := by
  cases v <;> simp [fillnaVal]

theorem fillnaVal_zero_div (d : FVal) : fillnaVal (FVal.div (FVal.fin 0) d) = FVal.fin 0 := by
  cases d with
  | fin b =>
      by_cases hb : b = 0
      · simp [FVal.div, hb, fillnaVal]
      · simp [FVal.div, hb, fillnaVal, zero_div]
  | pinf => rfl
  | ninf => rfl
  | nan => rfl

theorem alignTo_length (k : Nat) (xs : List FVal) : (alignTo k xs).length = k := by
  simp [alignTo]

theorem alignTo_getElem?_lt (k : Nat) (xs : List FVal) (i : Nat) (h : i < k) :
    (alignTo k xs)[i]? = some ((xs[i]?).getD FVal.nan) := by
  simp [alignTo, List.getElem?_range h]

theorem ratioCol_length (num den : Option (List FVal)) (k : Nat) :
    (ratioCol num den k).length = k := by
  cases num <;> cases den <;> simp [ratioCol, ratioRaw, alignTo]

theorem seriesDiv_getElem? (xs ys : List FVal) (i : Nat) (x y : FVal)
    (hx : xs[i]? = some x) (hy : ys[i]? = some y) :
    (seriesDiv xs ys)[i]? = some (FVal.div x y) := by
  have hxl : i < xs.length := by
    rcases List.getElem?_eq_some.mp hx with ⟨h, -⟩
    exact h
  have hmax : i < max xs.length ys.length := lt_of_lt_of_le hxl (le_max_left _ _)
  simp [seriesDiv, List.getElem?_range hmax, hx, hy]

theorem ratioCol_getElem?_both {ns ds : List FVal} {k i : Nat} {x y : FVal}
    (hik : i < k) (hx : ns[i]? = some x) (hy : ds[i]? = some y) :
    (ratioCol (some ns) (some ds) k)[i]? = some (fillnaVal (FVal.div x y)) := by
  simp [ratioCol, ratioRaw, alignTo_getElem?_lt k _ i hik,
    seriesDiv_getElem? ns ds i x y hx hy]

theorem ratioCol_getElem?_miss {ns ds : List FVal} {k i : Nat}
    (hik : i < k) (h : ns.length ≤ i ∨ ds.length ≤ i) :
    (ratioCol (some ns) (some ds) k)[i]? = some (FVal.fin 0) := by
  have hsd : ((seriesDiv ns ds)[i]?).getD FVal.nan = FVal.nan := by
    by_cases hm : i < max ns.length ds.length
    · rcases h with h | h
      · have hx : ns[i]? = none := List.getElem?_eq_none h
        simp [seriesDiv, List.getElem?_range hm, hx]
      · have hy : ds[i]? = none := List.getElem?_eq_none h
        have : ∀ x : Option FVal,
            (match x, (none : Option FVal) with
              | some x, some y => FVal.div x y
              | _, _ => FVal.nan) = FVal.nan := by
          intro x; cases x <;> rfl
        simp [seriesDiv, List.getElem?_range hm, hy, this]
    · have hlen : (seriesDiv ns ds).length ≤ i := by
        simpa [seriesDiv] using le_of_not_lt hm
      simp [List.getElem?_eq_none hlen]
  simp [ratioCol, ratioRaw, alignTo_getElem?_lt k _ i hik, hsd, fillnaVal]

theorem ratioCol_none_num (den : Option (List FVal)) (k : Nat) :
    ratioCol none den k = List.replicate k (FVal.fin 0) := by
  cases den with
  | none => simp [ratioCol, ratioRaw, List.map_replicate, fillnaVal]
  | some ds =>
      apply List.ext_getElem?
      intro i
      rw [List.getElem?_replicate]
      by_cases hik : i < k
      · rw [if_pos hik]
        have halign := alignTo_getElem?_lt k (ds.map (fun d => FVal.div (FVal.fin 0) d)) i hik
        cases hd : ds[i]? with
        | none => simp [ratioCol, ratioRaw, halign, hd, fillnaVal]
        | some d => simp [ratioCol, ratioRaw, halign, hd, fillnaVal_zero_div d]
      · rw [if_neg hik]
        apply List.getElem?_eq_none
        simpa [ratioCol_length] using le_of_not_lt hik

theorem ratioCol_no_nan (num den : Option (List FVal)) (k : Nat) :
    FVal.nan ∉ ratioCol num den k := by
  intro h
  rcases List.mem_map.mp h with ⟨v, -, hv⟩
  exact fillnaVal_ne_nan v hv

theorem fillnaVal_div_zero (x : FVal) :
    fillnaVal (FVal.div x (FVal.fin 0)) = zeroDenomValue x := by
  cases x with
  | fin a =>
      by_cases ha : a = 0
      · simp [FVal.div, fillnaVal, zeroDenomValue, ha]
      · by_cases hpos : 0 < a <;>
          simp [FVal.div, fillnaVal, zeroDenomValue, ha, hpos]
  | pinf => norm_num [FVal.div, fillnaVal, zeroDenomValue]
  | ninf => norm_num [FVal.div, fillnaVal, zeroDenomValue]
  | nan => rfl

theorem zeroDenomPointwise_ratioCol (num den : Option (List FVal)) (k : Nat) :
    zeroDenomPointwise num den k (ratioCol num den k) := by
  intro ns ds i x hn hd hik hx hdz
  subst hn
  subst hd
  rw [ratioCol_getElem?_both hik hx hdz, fillnaVal_div_zero]

theorem elementwiseSilent_ratioCol (num den : Option (List FVal)) (k : Nat) :
    elementwiseSilent num den k (ratioCol num den k) := by
  intro ns ds hn hd i hik
  subst hn
  subst hd
  exact ⟨fun x y hx hy => ratioCol_getElem?_both hik hx hy,
         fun hm => ratioCol_getElem?_miss hik hm⟩

theorem fillnaTable_item_names (t : Table) :
    (fillnaTable t).items.map (fun p => p.1) = t.items.map (fun p => p.1) := by
  simp [fillnaTable]

theorem find?_fillna_map (name : String) (l : List (String × List FVal)) :
    (l.map (fun p => (p.1, p.2.map fillnaVal))).find? (fun p => p.1 == name) =
      (l.find? (fun p => p.1 == name)).map (fun p => (p.1, p.2.map fillnaVal)) := by
  induction l with
  | nil => rfl
  | cons p ps ih =>
      by_cases h : (p.1 == name) = true
      · simp [List.find?, h]
      · simp only [List.map_cons, List.find?]
        rw [Bool.not_eq_true] at h
        simp [h, ih]

theorem fillnaTable_getCol (t : Table) (name : String) :
    (fillnaTable t).getCol name = (t.getCol name).map (fun c => c.map fillnaVal) := by
  unfold fillnaTable Table.getCol
  rw [find?_fillna_map]
  cases t.items.find? (fun p => p.1 == name) <;> rfl

theorem fillnaTable_no_nan (t : Table) :
    ∀ p ∈ (fillnaTable t).items, FVal.nan ∉ p.2 := by
  intro p hp hmem
  rcases List.mem_map.mp hp with ⟨q, -, rfl⟩
  rcases List.mem_map.mp hmem with ⟨v, -, hv⟩
  exact fillnaVal_ne_nan v hv

/-! Bridge lemmas between the two engine variants. -/

theorem gate_false_of_rmp {info : Info} (h : info.regularMarketPrice ≠ none) :
    (info.isEmpty || info.regularMarketPrice.isNone) = false := by
  have h1 : info.regularMarketPrice.isNone = false := by
    cases hrm : info.regularMarketPrice with
    | none => exact absurd hrm h
    | some q => rfl
  have h2 : info.isEmpty = false := by
    simp [Info.isEmpty, h1]
  simp [h1, h2]

theorem rt_eq_dash {s : String} {info : Info} {inc bs cf : Table}
    (h : info.regularMarketPrice ≠ none) :
    real_time.get_screener_data s info inc bs cf =
      some (real_time_financial_dashboard.get_screener_data s info inc bs cf) := by
  have hg := gate_false_of_rmp h
  simp [real_time.get_screener_data, real_time_financial_dashboard.get_screener_data, hg]

theorem rt_none_of_rmp {s : String} {info : Info} {inc bs cf : Table}
    (h : info.regularMarketPrice = none) :
    real_time.get_screener_data s info inc bs cf = none := by
  simp [real_time.get_screener_data, h]

theorem rt_some_inv {s : String} {info : Info} {inc bs cf : Table} {b : Bundle}
    (hb : real_time.get_screener_data s info inc bs cf = some b) :
    b = real_time_financial_dashboard.get_screener_data s info inc bs cf ∧
      info.regularMarketPrice ≠ none := by
  have hrm : info.regularMarketPrice ≠ none := by
    intro hn
    rw [rt_none_of_rmp hn] at hb
    exact Option.noConfusion hb
  rw [rt_eq_dash hrm] at hb
  exact ⟨(Option.some_inj.mp hb).symm, hrm⟩

theorem rt_none_iff (s : String) (info : Info) (inc bs cf : Table) :
    real_time.get_screener_data s info inc bs cf = none ↔
      info.isEmpty = true ∨ info.regularMarketPrice = none := by
  constructor
  · intro h
    by_cases hrm : info.regularMarketPrice = none
    · exact Or.inr hrm
    · rw [rt_eq_dash hrm] at h
      exact Option.noConfusion h
  · intro h
    have hg : (info.isEmpty || info.regularMarketPrice.isNone) = true := by
      rcases h with h | h
      · simp [h]
      · simp [h]
    simp [real_time.get_screener_data, hg]

/-! Theorems settling the claims. -/

/-- Claim C1, counterexample: on the specification's own scenario (years
[2021, 2022, 2023], Total Revenue [100, 200, 0], Net Income [10, 20, 5])
the engine's Net Profit Margin series is [0.10, 0.10, +inf], not
[0.10, 0.10, 0]: the 2023 zero-revenue year produces positive infinity,
because `fillna(0)` replaces only NaN and `5 / 0` is `inf`, not NaN. -/
theorem npm_scenario_gives_infinity :
    (real_time.get_screener_data symA infoA incA tblEmpty tblEmpty).map
        (fun b => b.ratios.net_profit_margin) =
      some [FVal.fin (1 / 10), FVal.fin (1 / 10), FVal.pinf] ∧
    (real_time.get_screener_data symA infoA incA tblEmpty tblEmpty).map
        (fun b => b.ratios.net_profit_margin) ≠
      some [FVal.fin (1 / 10), FVal.fin (1 / 10), FVal.fin 0] := by
  have h : (real_time.get_screener_data symA infoA incA tblEmpty tblEmpty).map
      (fun b => b.ratios.net_profit_margin) =
      some [FVal.fin ((10 : ℚ) / 100), FVal.fin ((20 : ℚ) / 200), FVal.pinf] := rfl
  rw [h]
  norm_num
  decide

/-- Claim C1, amended: in every returned bundle, for each of the five
ratio series and each aligned year whose denominator is exactly zero, the
stored ratio value is 0 exactly when the numerator at that year is zero
or NaN (the `0/0` and `NaN/0` NaNs are filled to 0 by `fillna`); with a
positive finite numerator it is +inf and with a negative finite numerator
-inf (an infinite numerator stays infinite). -/
theorem ratio_zero_denominator_characterization
    (s : String) (info : Info) (inc bs cf : Table) (b : Bundle)
    (hb : real_time.get_screener_data s info inc bs cf = some b) :
    zeroDenomPointwise (inc.getCol kNetIncome) (inc.getCol kTotalRevenue)
      inc.years.length b.ratios.net_profit_margin ∧
    zeroDenomPointwise (inc.getCol kNetIncome) (bs.getCol kTotalStockholderEquity)
      inc.years.length b.ratios.return_on_equity ∧
    zeroDenomPointwise (inc.getCol kNetIncome) (bs.getCol kTotalAssets)
      inc.years.length b.ratios.return_on_assets ∧
    zeroDenomPointwise (bs.getCol kTotalCurrentAssets)
      (bs.getCol kTotalCurrentLiabilities)
      inc.years.length b.ratios.current_ratio ∧
    zeroDenomPointwise (bs.getCol kTotalLiab) (bs.getCol kTotalStockholderEquity)
      inc.years.length b.ratios.debt_to_equity := by
  obtain ⟨rfl, -⟩ := rt_some_inv hb
  exact ⟨zeroDenomPointwise_ratioCol _ _ _, zeroDenomPointwise_ratioCol _ _ _,
    zeroDenomPointwise_ratioCol _ _ _, zeroDenomPointwise_ratioCol _ _ _,
    zeroDenomPointwise_ratioCol _ _ _⟩

/-- Witness for C1's amended theorem at the concrete scenario: year 2023
has revenue 0 and net income 5, and the Net Profit Margin entry is
`zeroDenomValue` of the numerator 5, that is +inf. -/
theorem ratio_zero_denominator_characterization_witness :
    (real_time_financial_dashboard.get_screener_data symA infoA incA tblEmpty
        tblEmpty).ratios.net_profit_margin[2]? =
      some (zeroDenomValue (FVal.fin 5)) ∧
    zeroDenomValue (FVal.fin 5) = FVal.pinf :=
  ⟨(ratio_zero_denominator_characterization symA infoA incA tblEmpty tblEmpty
      (real_time_financial_dashboard.get_screener_data symA infoA incA tblEmpty tblEmpty)
      rfl).1
    [FVal.fin 10, FVal.fin 20, FVal.fin 5]
    [FVal.fin 100, FVal.fin 200, FVal.fin 0]
    2 (FVal.fin 5) rfl rfl (by decide) rfl rfl,
   by norm_num [zeroDenomValue]⟩

/-- Claim C2, counterexample: with an income statement over [2021, 2022]
and a balance sheet over [2020, 2021, 2022] the returned bundle's tables
keep those distinct year axes — no table is re-indexed onto the income
statement's axis. -/
theorem year_axes_differ_across_tables :
    (real_time.get_screener_data symA infoA incB bsB tblEmpty).map
        (fun b => b.income_statement.years) = some [y2021, y2022] ∧
    (real_time.get_screener_data symA infoA incB bsB tblEmpty).map
        (fun b => b.balance_sheet.years) = some [y2020, y2021, y2022] ∧
    ([y2021, y2022] : List String) ≠ [y2020, y2021, y2022] := by
  refine ⟨rfl, rfl, ?_⟩
  decide

/-- Claim C2, amended: in every returned bundle only the ratios table is
indexed on the income statement's year axis (its year list is the income
statement's, and all five ratio series have that length); the income,
balance-sheet and cash-flow tables keep the year axes of their own raw
tables and are not re-indexed. -/
theorem bundle_year_axes (s : String) (info : Info) (inc bs cf : Table) (b : Bundle)
    (hb : real_time.get_screener_data s info inc bs cf = some b) :
    b.ratios.years = inc.years ∧
    b.income_statement.years = inc.years ∧
    b.balance_sheet.years = bs.years ∧
    b.cash_flow.years = cf.years ∧
    b.ratios.net_profit_margin.length = inc.years.length ∧
    b.ratios.return_on_equity.length = inc.years.length ∧
    b.ratios.return_on_assets.length = inc.years.length ∧
    b.ratios.current_ratio.length = inc.years.length ∧
    b.ratios.debt_to_equity.length = inc.years.length := by
  obtain ⟨rfl, -⟩ := rt_some_inv hb
  exact ⟨rfl, rfl, rfl, rfl, ratioCol_length _ _ _, ratioCol_length _ _ _,
    ratioCol_length _ _ _, ratioCol_length _ _ _, ratioCol_length _ _ _⟩

/-- Witness for C2's amended theorem at the mismatched-axes input. -/
theorem bundle_year_axes_witness :
    (real_time_financial_dashboard.get_screener_data symA infoA incB bsB
        tblEmpty).ratios.years = incB.years ∧
    (real_time_financial_dashboard.get_screener_data symA infoA incB bsB
        tblEmpty).balance_sheet.years = bsB.years :=
  ⟨(bundle_year_axes symA infoA incB bsB tblEmpty
      (real_time_financial_dashboard.get_screener_data symA infoA incB bsB tblEmpty)
      rfl).1,
   (bundle_year_axes symA infoA incB bsB tblEmpty
      (real_time_financial_dashboard.get_screener_data symA infoA incB bsB tblEmpty)
      rfl).2.2.1⟩

/-- Claim C3, counterexample: an info record that carries a live price
(`currentPrice` = 100) but no `regularMarketPrice` is rejected by the gate
— the call returns no bundle even though a live price is present, so the
failure condition is not "neither price present". -/
theorem gate_ignores_current_price :
    infoC.currentPrice = some 100 ∧
    real_time.get_screener_data symA infoC incA tblEmpty tblEmpty = none :=
  ⟨rfl, rfl⟩

/-- Claim C3, amended: the call fails (returns no bundle) exactly when the
info record is empty or has no `regularMarketPrice`; `currentPrice` plays
no role in the gate, and in every other case a complete bundle is
produced. -/
theorem data_unavailable_iff (s : String) (info : Info) (inc bs cf : Table) :
    real_time.get_screener_data s info inc bs cf = none ↔
      info.isEmpty = true ∨ info.regularMarketPrice = none :=
  rt_none_iff s info inc bs cf

/-- Claim C4, counterexample: when the balance sheet lacks "Total Current
Assets", the bundle is still built and its Current Ratio is all zeros, but
the normalized balance-sheet table does not contain the missing item as a
zero series — the item is simply absent (`getCol` yields `none`). -/
theorem missing_item_not_materialized :
    (real_time.get_screener_data symA infoA incA bsD tblEmpty).map
        (fun b => b.balance_sheet.getCol kTotalCurrentAssets) = some none ∧
    (real_time.get_screener_data symA infoA incA bsD tblEmpty).map
        (fun b => b.ratios.current_ratio) =
      some [FVal.fin 0, FVal.fin 0, FVal.fin 0] := by
  constructor
  · rfl
  · have h : (real_time.get_screener_data symA infoA incA bsD tblEmpty).map
        (fun b => b.ratios.current_ratio) =
        some [FVal.fin ((0 : ℚ) / 50), FVal.fin ((0 : ℚ) / 60),
          FVal.fin ((0 : ℚ) / 70)] := rfl
    rw [h]
    norm_num

/-- Claim C4, amended: a line item absent from a raw table never aborts
bundle construction; every ratio whose numerator item is absent is an
all-zero series of the year-axis length (Net Profit Margin, Return on
Equity and Return on Assets when "Net Income" is missing, the Current
Ratio when "Total Current Assets" is missing, Debt to Equity when
"Total Liab" is missing); but no missing item is materialized into a
normalized statement table: each table's item catalogue is exactly its
raw table's — the same item names in the same order, and looking up any
name yields exactly the raw column NaN-filled, or nothing if the raw
table lacks it. -/
theorem missing_item_degrades_to_zero
    (s : String) (info : Info) (inc bs cf : Table) (b : Bundle)
    (hb : real_time.get_screener_data s info inc bs cf = some b) :
    (inc.getCol kNetIncome = none →
      b.ratios.net_profit_margin = List.replicate inc.years.length (FVal.fin 0) ∧
      b.ratios.return_on_equity = List.replicate inc.years.length (FVal.fin 0) ∧
      b.ratios.return_on_assets = List.replicate inc.years.length (FVal.fin 0)) ∧
    (bs.getCol kTotalCurrentAssets = none →
      b.ratios.current_ratio = List.replicate inc.years.length (FVal.fin 0)) ∧
    (bs.getCol kTotalLiab = none →
      b.ratios.debt_to_equity = List.replicate inc.years.length (FVal.fin 0)) ∧
    b.income_statement.items.map (fun p => p.1) = inc.items.map (fun p => p.1) ∧
    b.balance_sheet.items.map (fun p => p.1) = bs.items.map (fun p => p.1) ∧
    b.cash_flow.items.map (fun p => p.1) = cf.items.map (fun p => p.1) ∧
    (∀ name, b.income_statement.getCol name =
      (inc.getCol name).map (fun c => c.map fillnaVal)) ∧
    (∀ name, b.balance_sheet.getCol name =
      (bs.getCol name).map (fun c => c.map fillnaVal)) ∧
    (∀ name, b.cash_flow.getCol name =
      (cf.getCol name).map (fun c => c.map fillnaVal)) := by
  obtain ⟨rfl, -⟩ := rt_some_inv hb
  refine ⟨?_, ?_, ?_, fillnaTable_item_names _, fillnaTable_item_names _,
    fillnaTable_item_names _, fun name => fillnaTable_getCol _ name,
    fun name => fillnaTable_getCol _ name, fun name => fillnaTable_getCol _ name⟩
  · intro h
    have h1 : (real_time_financial_dashboard.get_screener_data s info inc bs
        cf).ratios.net_profit_margin =
        ratioCol (inc.getCol kNetIncome) (inc.getCol kTotalRevenue)
          inc.years.length := rfl
    have h2 : (real_time_financial_dashboard.get_screener_data s info inc bs
        cf).ratios.return_on_equity =
        ratioCol (inc.getCol kNetIncome) (bs.getCol kTotalStockholderEquity)
          inc.years.length := rfl
    have h3 : (real_time_financial_dashboard.get_screener_data s info inc bs
        cf).ratios.return_on_assets =
        ratioCol (inc.getCol kNetIncome) (bs.getCol kTotalAssets)
          inc.years.length := rfl
    rw [h1, h2, h3, h, ratioCol_none_num, ratioCol_none_num, ratioCol_none_num]
    exact ⟨rfl, rfl, rfl⟩
  · intro h
    have h4 : (real_time_financial_dashboard.get_screener_data s info inc bs
        cf).ratios.current_ratio =
        ratioCol (bs.getCol kTotalCurrentAssets)
          (bs.getCol kTotalCurrentLiabilities) inc.years.length := rfl
    rw [h4, h, ratioCol_none_num]
  · intro h
    have h5 : (real_time_financial_dashboard.get_screener_data s info inc bs
        cf).ratios.debt_to_equity =
        ratioCol (bs.getCol kTotalLiab) (bs.getCol kTotalStockholderEquity)
          inc.years.length := rfl
    rw [h5, h, ratioCol_none_num]

/-- Witness for C4's amended theorem: the income statement `incC` lacks
"Net Income" and the balance sheet `bsD` lacks both "Total Current
Assets" and "Total Liab"; construction succeeds, the affected ratio
series are all zeros over the two-year axis, and the missing items stay
absent from the normalized tables. -/
theorem missing_item_degrades_to_zero_witness :
    (real_time_financial_dashboard.get_screener_data symA infoA incC bsD
        tblEmpty).ratios.net_profit_margin =
      List.replicate incC.years.length (FVal.fin 0) ∧
    (real_time_financial_dashboard.get_screener_data symA infoA incC bsD
        tblEmpty).ratios.current_ratio =
      List.replicate incC.years.length (FVal.fin 0) ∧
    (real_time_financial_dashboard.get_screener_data symA infoA incC bsD
        tblEmpty).ratios.debt_to_equity =
      List.replicate incC.years.length (FVal.fin 0) ∧
    (real_time_financial_dashboard.get_screener_data symA infoA incC bsD
        tblEmpty).balance_sheet.getCol kTotalCurrentAssets = none := by
  obtain ⟨h1, h2, h3, -, -, -, -, h8, -⟩ :=
    missing_item_degrades_to_zero symA infoA incC bsD tblEmpty
      (real_time_financial_dashboard.get_screener_data symA infoA incC bsD tblEmpty)
      rfl
  refine ⟨(h1 rfl).1, h2 rfl, h3 rfl, ?_⟩
  rw [h8 kTotalCurrentAssets]
  rfl

/-- Claim C5, counterexample: a returned bundle can contain a non-finite
float: on the zero-revenue scenario the Net Profit Margin entry for 2023
is positive infinity. -/
theorem bundle_contains_infinity :
    (real_time.get_screener_data symA infoA incA tblEmpty tblEmpty).map
        (fun b => b.ratios.net_profit_margin[2]?) = some (some FVal.pinf) := rfl

/-- Claim C5, amended: a returned bundle never contains NaN — every NaN
arising from missing items, index misalignment or `0/0` is filled to 0 —
but the ratio series may contain positive or negative infinity (a nonzero
numerator over a zero denominator survives the `fillna`). -/
theorem bundle_no_nan (s : String) (info : Info) (inc bs cf : Table) (b : Bundle)
    (hb : real_time.get_screener_data s info inc bs cf = some b) :
    FVal.nan ∉ b.ratios.net_profit_margin ∧
    FVal.nan ∉ b.ratios.return_on_equity ∧
    FVal.nan ∉ b.ratios.return_on_assets ∧
    FVal.nan ∉ b.ratios.current_ratio ∧
    FVal.nan ∉ b.ratios.debt_to_equity ∧
    (∀ p ∈ b.income_statement.items, FVal.nan ∉ p.2) ∧
    (∀ p ∈ b.balance_sheet.items, FVal.nan ∉ p.2) ∧
    (∀ p ∈ b.cash_flow.items, FVal.nan ∉ p.2) := by
  obtain ⟨rfl, -⟩ := rt_some_inv hb
  exact ⟨ratioCol_no_nan _ _ _, ratioCol_no_nan _ _ _, ratioCol_no_nan _ _ _,
    ratioCol_no_nan _ _ _, ratioCol_no_nan _ _ _,
    fillnaTable_no_nan _, fillnaTable_no_nan _, fillnaTable_no_nan _⟩

/-- Witness for C5's amended theorem at the scenario input. -/
theorem bundle_no_nan_witness :
    FVal.nan ∉ (real_time_financial_dashboard.get_screener_data symA infoA incA
        tblEmpty tblEmpty).ratios.net_profit_margin :=
  (bundle_no_nan symA infoA incA tblEmpty tblEmpty
    (real_time_financial_dashboard.get_screener_data symA infoA incA tblEmpty tblEmpty)
    rfl).1

/-- Claim C6 (confirmed): the two snapshot scalars with a zero-denominator
hazard resolve to 0 — `change_percent` is 0 when no previous close is
known (absent, hence defaulted to 0, or explicitly 0) and `ev_to_ebitda`
is 0 when EBITDA is absent or zero, whatever the enterprise value. -/
theorem snapshot_division_hazards_zero
    (s : String) (info : Info) (inc bs cf : Table) (b : Bundle)
    (hb : real_time.get_screener_data s info inc bs cf = some b) :
    ((info.previousClose = none ∨ info.previousClose = some 0) →
      b.change_percent = 0) ∧
    ((info.ebitda = none ∨ info.ebitda = some 0) →
      b.real_time_metrics.ev_to_ebitda = 0) := by
  obtain ⟨rfl, -⟩ := rt_some_inv hb
  constructor
  · intro h
    have hpc : info.previousClose.getD 0 = 0 := by
      rcases h with h | h <;> simp [h]
    simp [real_time_financial_dashboard.get_screener_data, hpc]
  · intro h
    have heb : info.ebitda.getD 0 = 0 := by
      rcases h with h | h <;> simp [h]
    simp [real_time_financial_dashboard.get_screener_data, heb]

/-- Witness for C6 at the spec's scenario: no previous close, EBITDA 0,
enterprise value 500 — both hazardous scalars are 0. -/
theorem snapshot_division_hazards_zero_witness :
    (real_time_financial_dashboard.get_screener_data symA infoE incA tblEmpty
        tblEmpty).change_percent = 0 ∧
    (real_time_financial_dashboard.get_screener_data symA infoE incA tblEmpty
        tblEmpty).real_time_metrics.ev_to_ebitda = 0 :=
  ⟨(snapshot_division_hazards_zero symA infoE incA tblEmpty tblEmpty
      (real_time_financial_dashboard.get_screener_data symA infoE incA tblEmpty tblEmpty)
      rfl).1 (Or.inl rfl),
   (snapshot_division_hazards_zero symA infoE incA tblEmpty tblEmpty
      (real_time_financial_dashboard.get_screener_data symA infoE incA tblEmpty tblEmpty)
      rfl).2 (Or.inr rfl)⟩

/-- Claim C7, counterexample: a three-year Net Income against a two-year
equity series is not a contract violation for the engine: the call still
returns a bundle and the Return on Equity series is computed, its
unmatched third position silently resolved to 0 (NaN from index
alignment, then filled). -/
theorem length_mismatch_silently_handled :
    (real_time.get_screener_data symA infoA incA bsE tblEmpty).map
        (fun b => b.ratios.return_on_equity) =
      some [FVal.fin (1 / 20), FVal.fin (1 / 10), FVal.fin 0] := by
  have h : (real_time.get_screener_data symA infoA incA bsE tblEmpty).map
      (fun b => b.ratios.return_on_equity) =
      some [FVal.fin ((10 : ℚ) / 200), FVal.fin ((20 : ℚ) / 200), FVal.fin 0] := rfl
  rw [h]
  norm_num

/-- Claim C7, amended: in every returned bundle, each of the five ratio
computations divides element-wise over the positional index, and a
year-axis length mismatch between numerator and denominator series is
silently reconciled, not asserted: every position carried by both
operands holds their filled quotient, every position missing from either
operand is NaN after index alignment and hence 0 after the fill, and the
call still returns a bundle. -/
theorem ratio_division_elementwise_silent
    (s : String) (info : Info) (inc bs cf : Table) (b : Bundle)
    (hb : real_time.get_screener_data s info inc bs cf = some b) :
    elementwiseSilent (inc.getCol kNetIncome) (inc.getCol kTotalRevenue)
      inc.years.length b.ratios.net_profit_margin ∧
    elementwiseSilent (inc.getCol kNetIncome) (bs.getCol kTotalStockholderEquity)
      inc.years.length b.ratios.return_on_equity ∧
    elementwiseSilent (inc.getCol kNetIncome) (bs.getCol kTotalAssets)
      inc.years.length b.ratios.return_on_assets ∧
    elementwiseSilent (bs.getCol kTotalCurrentAssets)
      (bs.getCol kTotalCurrentLiabilities)
      inc.years.length b.ratios.current_ratio ∧
    elementwiseSilent (bs.getCol kTotalLiab) (bs.getCol kTotalStockholderEquity)
      inc.years.length b.ratios.debt_to_equity := by
  obtain ⟨rfl, -⟩ := rt_some_inv hb
  exact ⟨elementwiseSilent_ratioCol _ _ _, elementwiseSilent_ratioCol _ _ _,
    elementwiseSilent_ratioCol _ _ _, elementwiseSilent_ratioCol _ _ _,
    elementwiseSilent_ratioCol _ _ _⟩

/-- Witness for C7's amended theorem: Net Income over three years against
equity over two years; position 0 of Return on Equity is the filled
quotient 10/200 and the unmatched position 2 is 0, with the bundle still
produced. -/
theorem ratio_division_elementwise_silent_witness :
    (real_time_financial_dashboard.get_screener_data symA infoA incA bsE
        tblEmpty).ratios.return_on_equity[0]? =
      some (fillnaVal (FVal.div (FVal.fin 10) (FVal.fin 200))) ∧
    (real_time_financial_dashboard.get_screener_data symA infoA incA bsE
        tblEmpty).ratios.return_on_equity[2]? = some (FVal.fin 0) := by
  have T := (ratio_division_elementwise_silent symA infoA incA bsE tblEmpty
      (real_time_financial_dashboard.get_screener_data symA infoA incA bsE tblEmpty)
      rfl).2.1
    [FVal.fin 10, FVal.fin 20, FVal.fin 5] [FVal.fin 200, FVal.fin 200] rfl rfl
  exact ⟨(T 0 (by decide)).1 (FVal.fin 10) (FVal.fin 200) rfl rfl,
         (T 2 (by decide)).2 (Or.inr (by decide))⟩
/-- Claim C8 (confirmed): the engine call is independent of the process
state (the global plot style set by `__init__` is neither read nor
written), so the state after a call equals the state before, the result
does not depend on the state the call starts from, and two successive
calls with identical raw provider data return bit-identical results —
nothing is cached or memoized between calls. -/
theorem engine_idempotent_stateless (st st' : DashboardState) (s : String)
    (info : Info) (inc bs cf : Table) :
    (get_screener_data_call st s info inc bs cf).1 = st ∧
    (get_screener_data_call st s info inc bs cf).2 =
      (get_screener_data_call st' s info inc bs cf).2 ∧
    (get_screener_data_call
        ((get_screener_data_call st s info inc bs cf).1) s info inc bs cf).2 =
      (get_screener_data_call st s info inc bs cf).2 :=
  ⟨rfl, rfl, rfl⟩

/-- Claim C9 (confirmed): whenever the info record carries a
`regularMarketPrice`, the `real_time.py` variant returns exactly the
bundle the `real_time_financial_dashboard.py` variant computes; and the
`real_time.py` variant returns `None` precisely when the info record is
empty or lacks `regularMarketPrice` — the gate is the only difference
between the two variants. -/
theorem variants_agree_on_priced_info (s : String) (info : Info)
    (inc bs cf : Table) :
    (info.regularMarketPrice ≠ none →
      real_time.get_screener_data s info inc bs cf =
        some (real_time_financial_dashboard.get_screener_data s info inc bs cf)) ∧
    (real_time.get_screener_data s info inc bs cf = none ↔
      info.isEmpty = true ∨ info.regularMarketPrice = none) :=
  ⟨fun h => rt_eq_dash h, rt_none_iff s info inc bs cf⟩

/-- Witness for C9 at a concrete priced info record. -/
theorem variants_agree_on_priced_info_witness :
    real_time.get_screener_data symA infoA incA tblEmpty tblEmpty =
      some (real_time_financial_dashboard.get_screener_data symA infoA incA
        tblEmpty tblEmpty) :=
  (variants_agree_on_priced_info symA infoA incA tblEmpty tblEmpty).1 (by decide)

/-- Claim C10 (confirmed): when the info record lacks `previousClose` (so
it defaults to 0), the returned bundle's `change` equals the current
price itself (`current_price - 0`) while `change_percent` is 0 — the
absolute and percentage change fields are asymmetric in this case. -/
theorem change_asymmetry_on_missing_previous_close
    (s : String) (info : Info) (inc bs cf : Table) (b : Bundle)
    (hb : real_time.get_screener_data s info inc bs cf = some b)
    (h : info.previousClose = none) :
    b.change = b.current_price ∧ b.change_percent = 0 := by
  obtain ⟨rfl, -⟩ := rt_some_inv hb
  constructor
  · simp [real_time_financial_dashboard.get_screener_data, h]
  · simp [real_time_financial_dashboard.get_screener_data, h]

/-- Witness for C10: `infoA` has no `previousClose`; the bundle's change
equals its current price and its change-percent is 0. -/
theorem change_asymmetry_on_missing_previous_close_witness :
    (real_time_financial_dashboard.get_screener_data symA infoA incA tblEmpty
        tblEmpty).change =
      (real_time_financial_dashboard.get_screener_data symA infoA incA tblEmpty
        tblEmpty).current_price ∧
    (real_time_financial_dashboard.get_screener_data symA infoA incA tblEmpty
        tblEmpty).change_percent = 0 :=
  change_asymmetry_on_missing_previous_close symA infoA incA tblEmpty tblEmpty
    (real_time_financial_dashboard.get_screener_data symA infoA incA tblEmpty tblEmpty)
    rfl rfl
